import Mathlib

/-!
Verification of the JQ8400 serial MP3 driver library against its
specification.  The repository ships only the public header
`src/JQ8400_Serial.h` (constants, the shadow-state fields with their
initialisers, and the inline member functions); the out-of-line member
function bodies are not part of the sources.  Constants, field
initialisers and inline bodies below are embedded from the header;
the remaining operations are modelled from the specification, each
marked `Modelled from the spec:` in its doc comment.

Machine bytes are modelled as `Nat` with explicit `% 256` where the
C code truncates; the serial port is modelled as explicit lists of
transmitted and received bytes.
-/

namespace JQ8400

/-! ## Constants from `JQ8400_Serial.h` -/

/-- `#define MP3_EQ_NORMAL 0` (header line 34). -/
def MP3_EQ_NORMAL : Nat := 0

/-- `#define MP3_SRC_USB 0` (header line 40). -/
def MP3_SRC_USB : Nat := 0

/-- `#define MP3_SRC_SDCARD 1` (header line 41). -/
def MP3_SRC_SDCARD : Nat := 1

/-- `#define MP3_SRC_FLASH 2` (header line 42). -/
def MP3_SRC_FLASH : Nat := 2

/-- `#define MP3_LOOP_ALL 0` (header line 54). -/
def MP3_LOOP_ALL : Nat := 0

/-- `#define MP3_LOOP_ONE 1` (header line 55). -/
def MP3_LOOP_ONE : Nat := 1

/-- `#define MP3_LOOP_ONE_STOP 2` (header line 56). -/
def MP3_LOOP_ONE_STOP : Nat := 2

/-- `#define MP3_LOOP_RANDOM 3` (header line 57). -/
def MP3_LOOP_RANDOM : Nat := 3

/-- `#define MP3_LOOP_FOLDER 4` (header line 58). -/
def MP3_LOOP_FOLDER : Nat := 4

/-- `#define MP3_LOOP_RANDOM_RANDOM 5` (header line 59). -/
def MP3_LOOP_RANDOM_RANDOM : Nat := 5

/-- `#define MP3_LOOP_FOLDER_STOP 6` (header line 60). -/
def MP3_LOOP_FOLDER_STOP : Nat := 6

/-- `#define MP3_LOOP_ALL_STOP 7` (header line 61). -/
def MP3_LOOP_ALL_STOP : Nat := 7

/-- `#define MP3_LOOP_NONE 0` (header line 63).  Note: the header's own
doc comments (lines 246 and 357) describe `MP3_LOOP_NONE` as
"aka MP3_LOOP_ONE_STOP", but the define gives it the value 0. -/
def MP3_LOOP_NONE : Nat := 0

/-- `#define MP3_STATUS_STOPPED 0` (header line 65). -/
def MP3_STATUS_STOPPED : Nat := 0

/-- `#define MP3_STATUS_PLAYING 1` (header line 66). -/
def MP3_STATUS_PLAYING : Nat := 1

/-- `#define MP3_STATUS_PAUSED 2` (header line 67). -/
def MP3_STATUS_PAUSED : Nat := 2

/-- `#define MP3_STATUS_CHECKS_IN_AGREEMENT 1` (header line 71). -/
def MP3_STATUS_CHECKS_IN_AGREEMENT : Nat := 1

/-- `static const uint8_t MP3_CMD_BEGIN = 0xAA` (header line 499):
the start-of-frame byte. -/
def MP3_CMD_BEGIN : Nat := 0xAA

/-- `MP3_CMD_PLAY = 0x02` (header line 501). -/
def MP3_CMD_PLAY : Nat := 0x02

/-- `MP3_CMD_PAUSE = 0x03` (header line 502). -/
def MP3_CMD_PAUSE : Nat := 0x03

/-- `MP3_CMD_STOP = 0x10` (header line 504). -/
def MP3_CMD_STOP : Nat := 0x10

/-- `MP3_CMD_NEXT = 0x06` (header line 507). -/
def MP3_CMD_NEXT : Nat := 0x06

/-- `MP3_CMD_PREV = 0x05` (header line 508). -/
def MP3_CMD_PREV : Nat := 0x05

/-- `MP3_CMD_PLAY_IDX = 0x07` (header line 509). -/
def MP3_CMD_PLAY_IDX : Nat := 0x07

/-- `MP3_CMD_SEEK_IDX = 0x1F` (header line 510). -/
def MP3_CMD_SEEK_IDX : Nat := 0x1F

/-- `MP3_CMD_NEXT_FOLDER = 0x0F` (header line 514). -/
def MP3_CMD_NEXT_FOLDER : Nat := 0x0F

/-- `MP3_CMD_PREV_FOLDER = 0x0E` (header line 515). -/
def MP3_CMD_PREV_FOLDER : Nat := 0x0E

/-- `MP3_CMD_PLAY_FILE_FOLDER = 0x08` (header line 517). -/
def MP3_CMD_PLAY_FILE_FOLDER : Nat := 0x08

/-- `MP3_CMD_VOL_UP = 0x14` (header line 519). -/
def MP3_CMD_VOL_UP : Nat := 0x14

/-- `MP3_CMD_VOL_DN = 0x15` (header line 520). -/
def MP3_CMD_VOL_DN : Nat := 0x15

/-- `MP3_CMD_VOL_SET = 0x13` (header line 521). -/
def MP3_CMD_VOL_SET : Nat := 0x13

/-- `MP3_CMD_EQ_SET = 0x1A` (header line 523). -/
def MP3_CMD_EQ_SET : Nat := 0x1A

/-- `MP3_CMD_LOOP_SET = 0x18` (header line 524). -/
def MP3_CMD_LOOP_SET : Nat := 0x18

/-- `MP3_CMD_SOURCE_SET = 0x0B` (header line 525). -/
def MP3_CMD_SOURCE_SET : Nat := 0x0B

/-- `MP3_CMD_SLEEP = 0x04` (header line 527). -/
def MP3_CMD_SLEEP : Nat := 0x04

/-- `MP3_CMD_RESET = 0x04` (header line 528). -/
def MP3_CMD_RESET : Nat := 0x04

/-- `MP3_CMD_STATUS = 0x01` (header line 530). -/
def MP3_CMD_STATUS : Nat := 0x01

/-- `MP3_CMD_GET_SOURCES = 0x09` (header line 532). -/
def MP3_CMD_GET_SOURCES : Nat := 0x09

/-- `MP3_CMD_COUNT_FILES = 0x0C` (header line 546). -/
def MP3_CMD_COUNT_FILES : Nat := 0x0C

/-- `MP3_CMD_COUNT_FOLDERS = 0x53` (header line 549). -/
def MP3_CMD_COUNT_FOLDERS : Nat := 0x53

/-- `MP3_CMD_CURRENT_FILE_IDX = 0x0D` (header line 552). -/
def MP3_CMD_CURRENT_FILE_IDX : Nat := 0x0D

/-! ## Frame codec -/

/-- Modelled from the spec: the checksum computed by the missing body of
`sendCommand` — "`cksum = (0xAA + opcode + N + Σargi) & 0xFF`" where `N`
is the number of argument bytes. -/
def checksum8 (opcode : Nat) (args : List Nat) : Nat :=
  (MP3_CMD_BEGIN + opcode + args.length + args.sum) % 256

/-- Modelled from the spec: the byte sequence emitted on the wire by the
missing body of `sendCommand` for a command — "Command frame:
`0xAA <opcode> <N> <arg1> … <argN> <cksum>`". -/
def encodeFrame (opcode : Nat) (args : List Nat) : List Nat :=
  MP3_CMD_BEGIN :: opcode :: args.length :: args ++ [checksum8 opcode args]

/-- A decoded frame: opcode plus payload bytes, as in the spec's
`Frame{opcode, payload[]}`. -/
structure Frame where
  opcode : Nat
  payload : List Nat
deriving DecidableEq, Repr

/-- Decoder errors surfaced by the frame decoder. -/
inductive DecodeError where
  | TimeoutError
  | ChecksumError
deriving DecidableEq, Repr

/-- Modelled from the spec: the response decoder (the missing
response-reading code of the transaction layer) — "skip bytes until
`0xAA`; read opcode, then length byte `L`, then `L` payload bytes, then
1 checksum byte.  Verify checksum; on mismatch return `ChecksumError`."
A stream that ends before the `L+4` frame bytes arrive gives
`TimeoutError`. -/
def decodeFrame : List Nat → Except DecodeError Frame
  | [] => .error .TimeoutError
  | b :: rest =>
    if b = MP3_CMD_BEGIN then
      match rest with
      | opcode :: len :: tail =>
        match tail.drop len with
        | cks :: _ =>
          if cks = checksum8 opcode (tail.take len) then
            .ok ⟨opcode, tail.take len⟩
          else
            .error .ChecksumError
        | [] => .error .TimeoutError
      | _ => .error .TimeoutError
    else
      decodeFrame rest

/-! ## Driver state

The driver's shadow fields (header lines 535-537) together with the
serial port, which we model as the list of bytes transmitted so far and
the list of bytes available to be read. -/

/-- Driver instance state: the three shadow fields with their header
initial values, plus the modelled serial port. -/
structure DriverState where
  /-- `uint8_t currentVolume = 20` (header line 535). -/
  currentVolume : Nat := 20
  /-- `uint8_t currentEq = 0` (header line 536). -/
  currentEq : Nat := 0
  /-- `uint8_t currentLoop = 2` (header line 537). -/
  currentLoop : Nat := 2
  /-- Bytes written to the serial port so far (oldest first). -/
  txBytes : List Nat := []
  /-- Bytes available to read from the serial port. -/
  rxBytes : List Nat := []
deriving DecidableEq, Repr

/-- A freshly constructed driver instance: every field takes its
header-initializer value and the port has seen no traffic. -/
def initialDriver : DriverState := {}

/-! ## Facade operations -/

/-- Modelled from the spec: the missing body of `setVolume` — the
argument is "clamp(v,0,30)" and "Volume is always clamped to 0..30 on
set"; emits a VOL_SET frame and records the clamped value in the shadow
field. -/
def setVolume (v : Int) (d : DriverState) : DriverState :=
  { d with currentVolume := (min 30 (max 0 v)).toNat,
           txBytes := d.txBytes ++
             encodeFrame MP3_CMD_VOL_SET [(min 30 (max 0 v)).toNat] }

/-- Modelled from the spec: the missing body of `volumeUp` — "shadow±1
clamped 0..30"; emits a VOL_UP frame. -/
def volumeUp (d : DriverState) : DriverState :=
  { d with currentVolume := min 30 (d.currentVolume + 1),
           txBytes := d.txBytes ++ encodeFrame MP3_CMD_VOL_UP [] }

/-- Modelled from the spec: the missing body of `volumeDn` — "shadow±1
clamped 0..30"; emits a VOL_DN frame (`Nat` subtraction clamps at 0). -/
def volumeDn (d : DriverState) : DriverState :=
  { d with currentVolume := d.currentVolume - 1,
           txBytes := d.txBytes ++ encodeFrame MP3_CMD_VOL_DN [] }

/-- Modelled from the spec: the missing body of `setEqualizer` — emits an
EQ_SET frame and records the mode in the shadow field; no response is
read. -/
def setEqualizer (e : Nat) (d : DriverState) : DriverState :=
  { d with currentEq := e,
           txBytes := d.txBytes ++ encodeFrame MP3_CMD_EQ_SET [e] }

/-- Modelled from the spec: the missing body of `setLoopMode` — emits a
LOOP_SET frame and records the mode in the shadow field. -/
def setLoopMode (m : Nat) (d : DriverState) : DriverState :=
  { d with currentLoop := m,
           txBytes := d.txBytes ++ encodeFrame MP3_CMD_LOOP_SET [m] }

/-- Modelled from the spec: the missing body of `setSource` — emits a
SOURCE_SET frame; no shadow field is touched. -/
def setSource (s : Nat) (d : DriverState) : DriverState :=
  { d with txBytes := d.txBytes ++ encodeFrame MP3_CMD_SOURCE_SET [s] }

/-- Modelled from the spec: the missing body of `getVolume` — "shadow
values, no device I/O".  Returns the shadow field and the unchanged
state. -/
def getVolume (d : DriverState) : Nat × DriverState :=
  (d.currentVolume, d)

/-- Modelled from the spec: the missing body of `getEqualizer` — "shadow
values, no device I/O". -/
def getEqualizer (d : DriverState) : Nat × DriverState :=
  (d.currentEq, d)

/-- Modelled from the spec: the missing body of `getLoopMode` — "shadow
values, no device I/O". -/
def getLoopMode (d : DriverState) : Nat × DriverState :=
  (d.currentLoop, d)

/-- Errors the facade raises before touching the port. -/
inductive CmdError where
  | ArgError
deriving DecidableEq, Repr

/-- Modelled from the spec: the missing body of `playFileByIndexNumber` —
"index 0 is invalid and must be rejected by the facade with `ArgError`
before any frame is emitted"; otherwise the index is sent big-endian
(high byte first) in a PLAY_IDX frame. -/
def playFileByIndexNumber (i : Nat) (d : DriverState) :
    Option CmdError × DriverState :=
  if i = 0 then
    (some .ArgError, d)
  else
    (none, { d with txBytes := d.txBytes ++
               encodeFrame MP3_CMD_PLAY_IDX [i / 256 % 256, i % 256] })

/-- Modelled from the spec: the missing body of `seekFileByIndexNumber` —
same argument contract as `playFileByIndexNumber`, opcode SEEK_IDX. -/
def seekFileByIndexNumber (i : Nat) (d : DriverState) :
    Option CmdError × DriverState :=
  if i = 0 then
    (some .ArgError, d)
  else
    (none, { d with txBytes := d.txBytes ++
               encodeFrame MP3_CMD_SEEK_IDX [i / 256 % 256, i % 256] })

/-- Modelled from the spec: the missing body of the zero-argument
`currentFileIndexNumber` — query opcode 0x0D, u16be response
(`hi*256 + lo`) decoded from the port's receive stream, which the
transaction drains. -/
def currentFileIndexNumber (d : DriverState) : Nat × DriverState :=
  ((match decodeFrame d.rxBytes with
    | .ok f =>
      match f.payload with
      | [hi, lo] => hi * 256 + lo
      | _ => 0
    | .error _ => 0),
   { d with txBytes := d.txBytes ++ encodeFrame MP3_CMD_CURRENT_FILE_IDX [],
            rxBytes := [] })

/-- From the header (line 419, inline body): the deprecated one-argument
overload of `currentFileIndexNumber` takes a source byte that is marked
unused and delegates unconditionally: `{ return currentFileIndexNumber(); }`. -/
def currentFileIndexNumberFrom (source : Nat) (d : DriverState) :
    Nat × DriverState :=
  currentFileIndexNumber d

/-! ## Facade operations as one inductive type (spec §4.4) -/

/-- The facade operations of the spec's operation table. -/
inductive Op where
  | play
  | pause
  | restart
  | stop
  | next
  | prev
  | nextFolder
  | prevFolder
  | playFileByIndex (i : Nat)
  | playFileInFolder (f n : Nat)
  | seekFileByIndex (i : Nat)
  | volumeUp
  | volumeDn
  | setVolume (v : Int)
  | setEqualizer (e : Nat)
  | setLoopMode (m : Nat)
  | setSource (s : Nat)
  | sleep
  | reset
  | getStatus
  | getVolume
  | getEqualizer
  | getLoopMode
  | getSource
  | getAvailableSources
  | countFiles
  | countFolders
  | currentFileIndex
deriving DecidableEq

/-- Modelled from the spec: the effect of each facade operation (missing
bodies) on the driver state.  Transport-only operations append their
command frame; queries additionally drain the receive stream; only the
three setter families touch the shadow fields. -/
def applyOp : Op → DriverState → DriverState
  | .play, d => { d with txBytes := d.txBytes ++ encodeFrame MP3_CMD_PLAY [] }
  | .pause, d => { d with txBytes := d.txBytes ++ encodeFrame MP3_CMD_PAUSE [] }
  | .restart, d =>
    { (currentFileIndexNumber d).2 with
      txBytes := (currentFileIndexNumber d).2.txBytes ++
        encodeFrame MP3_CMD_SEEK_IDX
          [(currentFileIndexNumber d).1 / 256 % 256,
           (currentFileIndexNumber d).1 % 256] ++
        encodeFrame MP3_CMD_PLAY [] }
  | .stop, d => { d with txBytes := d.txBytes ++ encodeFrame MP3_CMD_STOP [] }
  | .next, d => { d with txBytes := d.txBytes ++ encodeFrame MP3_CMD_NEXT [] }
  | .prev, d => { d with txBytes := d.txBytes ++ encodeFrame MP3_CMD_PREV [] }
  | .nextFolder, d =>
    { d with txBytes := d.txBytes ++ encodeFrame MP3_CMD_NEXT_FOLDER [] }
  | .prevFolder, d =>
    { d with txBytes := d.txBytes ++ encodeFrame MP3_CMD_PREV_FOLDER [] }
  | .playFileByIndex i, d => (playFileByIndexNumber i d).2
  | .playFileInFolder f n, d =>
    { d with txBytes := d.txBytes ++
        encodeFrame MP3_CMD_PLAY_FILE_FOLDER [f % 256, n % 256] }
  | .seekFileByIndex i, d => (seekFileByIndexNumber i d).2
  | .volumeUp, d => volumeUp d
  | .volumeDn, d => volumeDn d
  | .setVolume v, d => setVolume v d
  | .setEqualizer e, d => setEqualizer e d
  | .setLoopMode m, d => setLoopMode m d
  | .setSource s, d => setSource s d
  | .sleep, d => { d with txBytes := d.txBytes ++ encodeFrame MP3_CMD_SLEEP [] }
  | .reset, d => { d with txBytes := d.txBytes ++ encodeFrame MP3_CMD_RESET [] }
  | .getStatus, d =>
    { d with txBytes := d.txBytes ++ encodeFrame MP3_CMD_STATUS [],
             rxBytes := [] }
  | .getVolume, d => (getVolume d).2
  | .getEqualizer, d => (getEqualizer d).2
  | .getLoopMode, d => (getLoopMode d).2
  | .getSource, d =>
    { d with txBytes := d.txBytes ++ encodeFrame 0x0A [], rxBytes := [] }
  | .getAvailableSources, d =>
    { d with txBytes := d.txBytes ++ encodeFrame MP3_CMD_GET_SOURCES [],
             rxBytes := [] }
  | .countFiles, d =>
    { d with txBytes := d.txBytes ++ encodeFrame MP3_CMD_COUNT_FILES [],
             rxBytes := [] }
  | .countFolders, d =>
    { d with txBytes := d.txBytes ++ encodeFrame MP3_CMD_COUNT_FOLDERS [],
             rxBytes := [] }
  | .currentFileIndex, d => (currentFileIndexNumber d).2

/-! ## Source availability (inline in the header) -/

/-- From the header (lines 283-286, inline body):
`return getAvailableSources() & 1<<source;`.  The bitmask returned by
`getAvailableSources()` is passed in as `mask`. -/
def isSourceAvailable (mask source : Nat) : Nat :=
  mask &&& (1 <<< source)

/-! ## Status quorum -/

/-- Modelled from the spec: the missing body of `getStatus` — "issues the
STATUS query repeatedly until the last `N = MP3_STATUS_CHECKS_IN_AGREEMENT`
reads return the same value, up to a hard cap of `8×N` total attempts.
On cap exhaustion, the most recent value is returned."  The i-th device
response is `mock i`; `hist` is the reads so far, most recent first;
`i` counts queries already issued.  `fuel` only bounds the recursion:
the caller passes `8*N`, which the cap check keeps from running out. -/
def getStatusLoop (mock : Nat → Nat) (N : Nat) :
    Nat → Nat → List Nat → Nat × Nat
  | 0, i, hist => (hist.headD 0, i)
  | fuel + 1, i, hist =>
    if N ≤ hist.length + 1 ∧
        ((mock i :: hist).take N).all (fun x => x == mock i) then
      (mock i, i + 1)
    else if 8 * N ≤ i + 1 then
      (mock i, i + 1)
    else
      getStatusLoop mock N fuel (i + 1) (mock i :: hist)

/-- Modelled from the spec: `getStatus` against a mocked device; returns
the status value together with the number of STATUS queries issued. -/
def getStatusQuorum (mock : Nat → Nat) (N : Nat) : Nat × Nat :=
  getStatusLoop mock N (8 * N) 0 []

/-- The spec's quorum mock: responses PLAYING, PLAYING, STOPPED, PLAYING,
PLAYING, continued with PLAYING once the five listed responses are
exhausted. -/
def mockPPSPP : Nat → Nat := fun i =>
  if i = 2 then MP3_STATUS_STOPPED else MP3_STATUS_PLAYING

/-! ## Helper lemmas -/

/-- Unfolding lemma for `getStatusLoop` at nonzero fuel. -/
theorem getStatusLoop_succ (mock : Nat → Nat) (N fuel i : Nat)
    (hist : List Nat) :
    getStatusLoop mock N (fuel + 1) i hist =
      if N ≤ hist.length + 1 ∧
          ((mock i :: hist).take N).all (fun x => x == mock i) then
        (mock i, i + 1)
      else if 8 * N ≤ i + 1 then
        (mock i, i + 1)
      else
        getStatusLoop mock N fuel (i + 1) (mock i :: hist) := by
  rfl

/-- Invariant of the quorum loop: starting below the cap with matching
fuel, the loop issues at least one more query, never exceeds the cap,
and returns the most recently read value. -/
theorem getStatusLoop_bounds (mock : Nat → Nat) (N : Nat) :
    ∀ fuel i hist, i < 8 * N → i + fuel = 8 * N →
      i < (getStatusLoop mock N fuel i hist).2 ∧
      (getStatusLoop mock N fuel i hist).2 ≤ 8 * N ∧
      (getStatusLoop mock N fuel i hist).1 =
        mock ((getStatusLoop mock N fuel i hist).2 - 1) := by
  intro fuel
  induction fuel with
  | zero =>
    intro i hist h1 h2
    omega
  | succ fuel ih =>
    intro i hist h1 h2
    rw [getStatusLoop_succ]
    by_cases hagree : N ≤ hist.length + 1 ∧
        ((mock i :: hist).take N).all (fun x => x == mock i)
    · rw [if_pos hagree]
      refine ⟨Nat.lt_succ_self i, h1, by simp⟩
    · rw [if_neg hagree]
      by_cases hcap : 8 * N ≤ i + 1
      · rw [if_pos hcap]
        refine ⟨Nat.lt_succ_self i, h1, by simp⟩
      · rw [if_neg hcap]
        have h3 := ih (i + 1) (mock i :: hist) (by omega) (by omega)
        exact ⟨by omega, h3.2.1, h3.2.2⟩

end JQ8400

namespace JQ8400

/-! ## Claim C1: checksum law -/

/-- C1: for every command with opcode `c` and argument bytes `a`, the
encoded frame is `0xAA, c, |a|,` the bytes of `a`, and a final checksum
byte equal to `(0xAA + c + |a| + Σa) mod 256`. -/
theorem encodeFrame_checksum_law (c : Nat) (a : List Nat) :
    encodeFrame c a =
      0xAA :: c :: a.length :: a ++ [(0xAA + c + a.length + a.sum) % 256] ∧
    (encodeFrame c a).getLast? = some ((0xAA + c + a.length + a.sum) % 256) := by
  constructor
  · rfl
  · show (0xAA :: c :: a.length :: (a ++ [checksum8 c a])).getLast? = _
    rw [show (0xAA : Nat) :: c :: a.length :: (a ++ [checksum8 c a]) =
          (0xAA :: c :: a.length :: a) ++ [checksum8 c a] by simp,
        List.getLast?_concat]
    rfl

/-! ## Claim C2: decode is a left inverse of encode -/

/-- C2: decoding the byte sequence produced by encoding a frame yields
exactly that frame.  `encodeFrame` computes the checksum from the frame,
so every encoded byte sequence carries a valid checksum, and the
round-trip holds for every frame. -/
theorem decodeFrame_encodeFrame (F : Frame) :
    decodeFrame (encodeFrame F.opcode F.payload) = .ok F := by
  obtain ⟨opcode, payload⟩ := F
  have hdrop : (payload ++ [checksum8 opcode payload]).drop payload.length =
      [checksum8 opcode payload] := List.drop_left _ _
  have htake : (payload ++ [checksum8 opcode payload]).take payload.length =
      payload := List.take_left _ _
  show decodeFrame (MP3_CMD_BEGIN :: opcode :: payload.length ::
    (payload ++ [checksum8 opcode payload])) = _
  simp [decodeFrame, hdrop, htake]

/-! ## Claim C3: volume clamp -/

/-- C3: after `setVolume v` the stored shadow volume equals
`min 30 (max 0 v)` and `getVolume` returns it; and starting from any
state satisfying the volume invariant, each of `setVolume`, `volumeUp`
and `volumeDn` leaves the shadow volume in 0..30. -/
theorem setVolume_clamp (d : DriverState) (v : Int)
    (h : d.currentVolume ≤ 30) :
    ((getVolume (setVolume v d)).1 : Int) = min 30 (max 0 v) ∧
    (setVolume v d).currentVolume ≤ 30 ∧
    (volumeUp d).currentVolume ≤ 30 ∧
    (volumeDn d).currentVolume ≤ 30 := by
  refine ⟨?_, ?_, ?_, ?_⟩
  · show ((min 30 (max 0 v)).toNat : Int) = min 30 (max 0 v)
    omega
  · show (min 30 (max 0 v)).toNat ≤ 30
    omega
  · show min 30 (d.currentVolume + 1) ≤ 30
    omega
  · show d.currentVolume - 1 ≤ 30
    omega

/-- C3 witness: from the fresh driver state, `setVolume 45` stores and
returns 30. -/
theorem setVolume_clamp_witness :
    ((getVolume (setVolume 45 initialDriver)).1 : Int) = min 30 (max 0 45) ∧
    (setVolume 45 initialDriver).currentVolume ≤ 30 ∧
    (volumeUp initialDriver).currentVolume ≤ 30 ∧
    (volumeDn initialDriver).currentVolume ≤ 30 :=
  setVolume_clamp initialDriver 45 (by decide)

/-! ## Claim C4: shadow persistence and I/O-free getters -/

/-- C4: after `setEqualizer e`, `getEqualizer` returns `e` even though
the receive stream is never consulted (no device response is needed);
and the getters `getVolume`, `getEqualizer` and `getLoopMode` return the
shadow fields while leaving the entire state — port included —
untouched. -/
theorem setEqualizer_shadow_persistence (d : DriverState) (e : Nat) :
    (getEqualizer (setEqualizer e d)).1 = e ∧
    (setEqualizer e d).rxBytes = d.rxBytes ∧
    getVolume d = (d.currentVolume, d) ∧
    getEqualizer d = (d.currentEq, d) ∧
    getLoopMode d = (d.currentLoop, d) :=
  ⟨rfl, rfl, rfl, rfl, rfl⟩

/-! ## Claim C5: status quorum -/

/-- C5 counterexample: for the spec's own mock `[P,P,S,P,P]` (continued
with P) and N = 3, the quorum loop needs 6 queries before the last three
reads agree — not at most 5: reads 3,4,5 are S,P,P, so three consecutive
equal reads cannot be complete by query 5. -/
theorem getStatusQuorum_not_within_five :
    getStatusQuorum mockPPSPP 3 = (MP3_STATUS_PLAYING, 6) ∧
    ¬((getStatusQuorum mockPPSPP 3).2 ≤ 5) := by
  decide

/-- C5 (amended): `getStatus` repeats the STATUS query until the last
`N = MP3_STATUS_CHECKS_IN_AGREEMENT` consecutive reads agree, issues at
least 1 and at most `8×N` queries, always returns the most recent value
(in particular on cap exhaustion); the default N is 1, for which it
returns the first read after exactly one query; and for the response
sequence `[P,P,S,P,P]` continued with P, with N = 3 it returns P after 6
queries. -/
theorem getStatusQuorum_spec (mock : Nat → Nat) (N : Nat) (h : 1 ≤ N) :
    1 ≤ (getStatusQuorum mock N).2 ∧
    (getStatusQuorum mock N).2 ≤ 8 * N ∧
    (getStatusQuorum mock N).1 = mock ((getStatusQuorum mock N).2 - 1) ∧
    MP3_STATUS_CHECKS_IN_AGREEMENT = 1 ∧
    (∀ m : Nat → Nat,
      getStatusQuorum m MP3_STATUS_CHECKS_IN_AGREEMENT = (m 0, 1)) ∧
    getStatusQuorum mockPPSPP 3 = (MP3_STATUS_PLAYING, 6) := by
  have hb := getStatusLoop_bounds mock N (8 * N) 0 [] (by omega) (by omega)
  refine ⟨hb.1, hb.2.1, hb.2.2, rfl, ?_, by decide⟩
  intro m
  show getStatusLoop m 1 (8 * 1) 0 [] = (m 0, 1)
  rw [show 8 * 1 = 7 + 1 by rfl, getStatusLoop_succ]
  simp

/-- C5 witness: the quorum read with the default agreement count, on a
device that always answers PLAYING. -/
theorem getStatusQuorum_spec_witness :
    1 ≤ (getStatusQuorum (fun _ => MP3_STATUS_PLAYING) 1).2 ∧
    (getStatusQuorum (fun _ => MP3_STATUS_PLAYING) 1).2 ≤ 8 * 1 ∧
    (getStatusQuorum (fun _ => MP3_STATUS_PLAYING) 1).1 =
      (fun _ => MP3_STATUS_PLAYING)
        ((getStatusQuorum (fun _ => MP3_STATUS_PLAYING) 1).2 - 1) ∧
    MP3_STATUS_CHECKS_IN_AGREEMENT = 1 ∧
    (∀ m : Nat → Nat,
      getStatusQuorum m MP3_STATUS_CHECKS_IN_AGREEMENT = (m 0, 1)) ∧
    getStatusQuorum mockPPSPP 3 = (MP3_STATUS_PLAYING, 6) :=
  getStatusQuorum_spec (fun _ => MP3_STATUS_PLAYING) 1 (by decide)

/-! ## Claim C6: loop-mode constants -/

/-- C6: the loop-mode constants take the values ALL=0, ONE=1, ONE_STOP=2,
RANDOM=3, FOLDER=4, RANDOM_RANDOM=5, FOLDER_STOP=6, ALL_STOP=7; the
header defines the alias `MP3_LOOP_NONE` as 0, contradicting its own doc
comments (lines 246 and 357) which call it "aka MP3_LOOP_ONE_STOP". -/
theorem loop_mode_constants :
    MP3_LOOP_ALL = 0 ∧ MP3_LOOP_ONE = 1 ∧ MP3_LOOP_ONE_STOP = 2 ∧
    MP3_LOOP_RANDOM = 3 ∧ MP3_LOOP_FOLDER = 4 ∧ MP3_LOOP_RANDOM_RANDOM = 5 ∧
    MP3_LOOP_FOLDER_STOP = 6 ∧ MP3_LOOP_ALL_STOP = 7 ∧
    MP3_LOOP_NONE = 0 ∧ MP3_LOOP_NONE ≠ MP3_LOOP_ONE_STOP := by
  decide

/-! ## Claim C7: source-availability bit test -/

/-- C7: for every source `s` in {0,1,2} and every byte mask,
`isSourceAvailable` is truthy (nonzero, hence converts to `true` in a
boolean context) exactly when bit `s` of the mask is 1. -/
theorem isSourceAvailable_bit (mask : Nat) (hm : mask < 256)
    (s : Nat) (hs : s < 3) :
    (isSourceAvailable mask s ≠ 0) ↔ ((mask >>> s) &&& 1 = 1) := by
  unfold isSourceAvailable
  rw [Nat.one_shiftLeft, Nat.and_two_pow, Nat.and_one_is_mod,
    Nat.shiftRight_eq_div_pow, Nat.testBit_to_div_mod]
  by_cases hP : mask / 2 ^ s % 2 = 1
  · have h2 : 2 ^ s ≠ 0 := Nat.pos_iff_ne_zero.mp (Nat.two_pow_pos s)
    simp [hP, h2]
  · simp [hP]

/-- C7 witness: source SDCARD (bit 1) is reported available for the
concrete mask `0b010`. -/
theorem isSourceAvailable_bit_witness :
    (isSourceAvailable 2 1 ≠ 0) ↔ ((2 >>> 1) &&& 1 = 1) :=
  isSourceAvailable_bit 2 (by decide) 1 (by decide)

/-! ## Claim C8: shadow-state initial values and framing -/

/-- C8: a freshly constructed driver has shadow volume 20, equalizer
NORMAL and loop mode ONE_STOP, and across every facade operation the
equalizer shadow changes only under `setEqualizer`, the loop shadow only
under `setLoopMode`, and the volume shadow only under the volume
setters. -/
theorem shadow_state_init_and_framing :
    initialDriver.currentVolume = 20 ∧
    initialDriver.currentEq = MP3_EQ_NORMAL ∧
    initialDriver.currentLoop = MP3_LOOP_ONE_STOP ∧
    (∀ op d, (∃ e, op = Op.setEqualizer e) ∨
      (applyOp op d).currentEq = d.currentEq) ∧
    (∀ op d, (∃ m, op = Op.setLoopMode m) ∨
      (applyOp op d).currentLoop = d.currentLoop) ∧
    (∀ op d, (∃ v, op = Op.setVolume v) ∨ op = Op.volumeUp ∨
      op = Op.volumeDn ∨
      (applyOp op d).currentVolume = d.currentVolume) := by
  refine ⟨rfl, rfl, rfl, ?_, ?_, ?_⟩ <;>
    intro op d <;> cases op <;>
    simp [applyOp, setVolume, volumeUp, volumeDn, setEqualizer, setLoopMode,
      setSource, playFileByIndexNumber, seekFileByIndexNumber,
      currentFileIndexNumber, getVolume, getEqualizer, getLoopMode,
      apply_ite]

/-! ## Claim C9: index-taking operations reject index 0 -/

/-- C9: `playFileByIndexNumber` and `seekFileByIndexNumber` reject index
0 with `ArgError` leaving the state — in particular the transmitted
bytes — untouched, and for every index `i ≥ 1` they emit their frame
with `i` encoded big-endian (high byte first). -/
theorem index_zero_rejected (d : DriverState) (i : Nat) (h : 1 ≤ i) :
    playFileByIndexNumber 0 d = (some .ArgError, d) ∧
    seekFileByIndexNumber 0 d = (some .ArgError, d) ∧
    playFileByIndexNumber i d =
      (none, { d with
                 txBytes := d.txBytes ++
                   encodeFrame MP3_CMD_PLAY_IDX [i / 256 % 256, i % 256] }) ∧
    seekFileByIndexNumber i d =
      (none, { d with
                 txBytes := d.txBytes ++
                   encodeFrame MP3_CMD_SEEK_IDX [i / 256 % 256, i % 256] }) := by
  have hi : i ≠ 0 := by omega
  refine ⟨rfl, rfl, ?_, ?_⟩
  · simp [playFileByIndexNumber, hi]
  · simp [seekFileByIndexNumber, hi]

/-- C9 witness: from the fresh state, index 0 is rejected with no bytes
emitted while index 6 emits the PLAY_IDX/SEEK_IDX frame `00 06`
big-endian. -/
theorem index_zero_rejected_witness :
    playFileByIndexNumber 0 initialDriver = (some .ArgError, initialDriver) ∧
    seekFileByIndexNumber 0 initialDriver = (some .ArgError, initialDriver) ∧
    playFileByIndexNumber 6 initialDriver =
      (none, { initialDriver with
                 txBytes := initialDriver.txBytes ++
                   encodeFrame MP3_CMD_PLAY_IDX [6 / 256 % 256, 6 % 256] }) ∧
    seekFileByIndexNumber 6 initialDriver =
      (none, { initialDriver with
                 txBytes := initialDriver.txBytes ++
                   encodeFrame MP3_CMD_SEEK_IDX [6 / 256 % 256, 6 % 256] }) :=
  index_zero_rejected initialDriver 6 (by decide)

/-! ## Claim C10: the one-argument current-file overload ignores its source -/

/-- C10: for every byte `s`, the deprecated one-argument overload of
`currentFileIndexNumber` returns exactly the value and state of the
zero-argument version; two calls differing only in the source byte are
indistinguishable. -/
theorem currentFileIndexNumberFrom_ignores_source :
    (∀ s d, currentFileIndexNumberFrom s d = currentFileIndexNumber d) ∧
    (∀ s1 s2 d,
      currentFileIndexNumberFrom s1 d = currentFileIndexNumberFrom s2 d) :=
  ⟨fun _ _ => rfl, fun _ _ _ => rfl⟩

end JQ8400
